import Mathlib

/-!
Verification of the stream metrics accounting layer of parseable
(`src/stats.rs`) and the OTel log severity enumeration
(`server/src/handlers/http/otel/log.rs`).

The counter registry consumed by `stats.rs` lives outside the given
sources, so its interface is modelled from the specification (§6, §7):
a label-keyed store of counter series supporting fallible removal
(`removeLabelValues -> Result<(), NotFound>`) and reads that report an
absent series as `SeriesNotFound` without creating it.
-/

namespace Parseable

/-- The twelve counter metric families imported by `src/stats.rs` from
`crate::metrics`. -/
inductive MetricName where
  | EVENTS_INGESTED
  | EVENTS_INGESTED_SIZE
  | STORAGE_SIZE
  | EVENTS_DELETED
  | EVENTS_DELETED_SIZE
  | DELETED_EVENTS_STORAGE_SIZE
  | LIFETIME_EVENTS_INGESTED
  | LIFETIME_EVENTS_INGESTED_SIZE
  | LIFETIME_EVENTS_STORAGE_SIZE
  | EVENTS_INGESTED_DATE
  | EVENTS_INGESTED_SIZE_DATE
  | EVENTS_STORAGE_SIZE_DATE
  deriving DecidableEq, Repr

/-- Modelled from the spec: the registry is a label-keyed counter store;
each series is addressed by a metric family name together with an ordered
label tuple, and holds a non-negative integer value.  `none` means the
series is absent from the registry. -/
abbrev Registry := MetricName → List String → Option Nat

/-- Modelled from the spec: the registry error surfaced by
`removeLabelValues(name, labelValues) -> Result<(), NotFound>` (§6);
`prometheus::Result` in the source. -/
inductive PromError where
  | notFound
  deriving DecidableEq, Repr

/-- `Stats` from `src/stats.rs`: point-in-time read of the three related
counters of one tier. -/
structure Stats where
  events : Nat
  ingestion : Nat
  storage : Nat
  deriving DecidableEq, Repr

/-- `FullStats` from `src/stats.rs`: the complete accounting view. -/
structure FullStats where
  lifetime_stats : Stats
  current_stats : Stats
  deleted_stats : Stats
  deriving DecidableEq, Repr

/-- `event_labels` from `src/stats.rs`: `[stream_name, format]`. -/
def event_labels (stream_name format : String) : List String :=
  [stream_name, format]

/-- `storage_size_labels` from `src/stats.rs`:
`["data", stream_name, "parquet"]`. -/
def storage_size_labels (stream_name : String) : List String :=
  ["data", stream_name, "parquet"]

/-- `event_labels_date` from `src/stats.rs`:
`[stream_name, format, date]`. -/
def event_labels_date (stream_name format date : String) : List String :=
  [stream_name, format, date]

/-- `storage_size_labels_date` from `src/stats.rs`:
`["data", stream_name, "parquet", date]`. -/
def storage_size_labels_date (stream_name date : String) : List String :=
  ["data", stream_name, "parquet", date]

/-- Modelled from the spec: a registry read of one series
(`get_metric_with_label_values(..).ok()` followed by `.get()` in the
source).  An absent series yields `none` (`SeriesNotFound`, §7) and is
not created by the read. -/
def get_metric_with_label_values (r : Registry) (m : MetricName)
    (l : List String) : Option Nat :=
  r m l

/-- Modelled from the spec: `removeLabelValues` (§6).  Removing a present
series deletes exactly that series; removing an absent series fails with
`NotFound` and leaves the registry unchanged. -/
def remove_label_values (r : Registry) (m : MetricName) (l : List String) :
    Except PromError Registry :=
  match r m l with
  | some _ =>
      .ok (fun m2 l2 => if m2 = m then (if l2 = l then none else r m2 l2)
                        else r m2 l2)
  | none => .error .notFound

/-- `get_current_stats` from `src/stats.rs`, translated clause by clause:
nine reads chained through `Option` (`.ok()?` in the source), then the
assembly of `FullStats` from the lifetime, ingested and deleted counters. -/
def get_current_stats (r : Registry) (stream_name format : String) :
    Option FullStats := do
  let event_labels := event_labels stream_name format
  let storage_size_labels := storage_size_labels stream_name
  let events_ingested ← get_metric_with_label_values r .EVENTS_INGESTED event_labels
  let ingestion_size ← get_metric_with_label_values r .EVENTS_INGESTED_SIZE event_labels
  let storage_size ← get_metric_with_label_values r .STORAGE_SIZE storage_size_labels
  let events_deleted ← get_metric_with_label_values r .EVENTS_DELETED event_labels
  let events_deleted_size ← get_metric_with_label_values r .EVENTS_DELETED_SIZE event_labels
  let deleted_events_storage_size ←
    get_metric_with_label_values r .DELETED_EVENTS_STORAGE_SIZE storage_size_labels
  let lifetime_events_ingested ←
    get_metric_with_label_values r .LIFETIME_EVENTS_INGESTED event_labels
  let lifetime_ingestion_size ←
    get_metric_with_label_values r .LIFETIME_EVENTS_INGESTED_SIZE event_labels
  let lifetime_events_storage_size ←
    get_metric_with_label_values r .LIFETIME_EVENTS_STORAGE_SIZE storage_size_labels
  pure { lifetime_stats := { events := lifetime_events_ingested,
                             ingestion := lifetime_ingestion_size,
                             storage := lifetime_events_storage_size },
         current_stats := { events := events_ingested,
                            ingestion := ingestion_size,
                            storage := storage_size },
         deleted_stats := { events := events_deleted,
                            ingestion := events_deleted_size,
                            storage := deleted_events_storage_size } }

/-- Outcome of a (possibly partial) teardown: the registry left behind,
the removal calls issued so far in order, and the `prometheus::Result`
of the surrounding function. -/
structure DeleteOutcome where
  reg : Registry
  calls : List (MetricName × List String)
  result : Except PromError Unit

/-- One source line `M.remove_label_values(&l)?` of `delete_stats`.  If an
earlier line already returned (`result` is an error) the call is not
issued; otherwise the call is recorded in `calls` and, on failure, the
error is propagated by `?` while the registry keeps all removals completed
so far. -/
def tryRemove (m : MetricName) (l : List String) (o : DeleteOutcome) :
    DeleteOutcome :=
  match o.result with
  | .error _ => o
  | .ok () =>
      match remove_label_values o.reg m l with
      | .ok r2 => { reg := r2, calls := o.calls ++ [(m, l)], result := .ok () }
      | .error e => { reg := o.reg, calls := o.calls ++ [(m, l)], result := .error e }

/-- Runs a sequence of `remove_label_values(..)?` lines in order. -/
def runTeardown (keys : List (MetricName × List String)) (o : DeleteOutcome) :
    DeleteOutcome :=
  keys.foldl (fun acc k => tryRemove k.1 k.2 acc) o

/-- `delete_stats` from `src/stats.rs`, translated line by line: twelve
`remove_label_values(..)?` calls.  Note that the three date-partitioned
families on the last three lines are addressed with the date-less label
tuples, exactly as in the source. -/
def delete_stats (r : Registry) (stream_name format : String) : DeleteOutcome :=
  let event_labels := event_labels stream_name format
  let storage_size_labels := storage_size_labels stream_name
  ({ reg := r, calls := [], result := .ok () } : DeleteOutcome)
  |> tryRemove .EVENTS_INGESTED event_labels
  |> tryRemove .EVENTS_INGESTED_SIZE event_labels
  |> tryRemove .STORAGE_SIZE storage_size_labels
  |> tryRemove .EVENTS_DELETED event_labels
  |> tryRemove .EVENTS_DELETED_SIZE event_labels
  |> tryRemove .DELETED_EVENTS_STORAGE_SIZE storage_size_labels
  |> tryRemove .LIFETIME_EVENTS_INGESTED event_labels
  |> tryRemove .LIFETIME_EVENTS_INGESTED_SIZE event_labels
  |> tryRemove .LIFETIME_EVENTS_STORAGE_SIZE storage_size_labels
  |> tryRemove .EVENTS_INGESTED_DATE event_labels
  |> tryRemove .EVENTS_INGESTED_SIZE_DATE event_labels
  |> tryRemove .EVENTS_STORAGE_SIZE_DATE storage_size_labels

/-- The fixed order of the twelve removal calls of `delete_stats`:
events, ingestion-size, storage-size for the current, deleted and
lifetime tiers, then the three date-partitioned families. -/
def deleteCallOrder (stream_name format : String) :
    List (MetricName × List String) :=
  [(.EVENTS_INGESTED, event_labels stream_name format),
   (.EVENTS_INGESTED_SIZE, event_labels stream_name format),
   (.STORAGE_SIZE, storage_size_labels stream_name),
   (.EVENTS_DELETED, event_labels stream_name format),
   (.EVENTS_DELETED_SIZE, event_labels stream_name format),
   (.DELETED_EVENTS_STORAGE_SIZE, storage_size_labels stream_name),
   (.LIFETIME_EVENTS_INGESTED, event_labels stream_name format),
   (.LIFETIME_EVENTS_INGESTED_SIZE, event_labels stream_name format),
   (.LIFETIME_EVENTS_STORAGE_SIZE, storage_size_labels stream_name),
   (.EVENTS_INGESTED_DATE, event_labels stream_name format),
   (.EVENTS_INGESTED_SIZE_DATE, event_labels stream_name format),
   (.EVENTS_STORAGE_SIZE_DATE, storage_size_labels stream_name)]

/-- `SeverityNumber` from `server/src/handlers/http/otel/log.rs`:
possible values of `LogRecord.severity_number`, with `repr(i32)` values
0 to 24. -/
inductive SeverityNumber where
  | Unspecified
  | Trace
  | Trace2
  | Trace3
  | Trace4
  | Debug
  | Debug2
  | Debug3
  | Debug4
  | Info
  | Info2
  | Info3
  | Info4
  | Warn
  | Warn2
  | Warn3
  | Warn4
  | Error
  | Error2
  | Error3
  | Error4
  | Fatal
  | Fatal2
  | Fatal3
  | Fatal4
  deriving DecidableEq, Repr

/-- The `repr(i32)` numeric value of each `SeverityNumber` variant. -/
def SeverityNumber.val : SeverityNumber → Int
  | .Unspecified => 0
  | .Trace => 1
  | .Trace2 => 2
  | .Trace3 => 3
  | .Trace4 => 4
  | .Debug => 5
  | .Debug2 => 6
  | .Debug3 => 7
  | .Debug4 => 8
  | .Info => 9
  | .Info2 => 10
  | .Info3 => 11
  | .Info4 => 12
  | .Warn => 13
  | .Warn2 => 14
  | .Warn3 => 15
  | .Warn4 => 16
  | .Error => 17
  | .Error2 => 18
  | .Error3 => 19
  | .Error4 => 20
  | .Fatal => 21
  | .Fatal2 => 22
  | .Fatal3 => 23
  | .Fatal4 => 24

/-- `SeverityNumber::as_str_name` from
`server/src/handlers/http/otel/log.rs`, arm by arm.  The Rust `match` on
an `i32` is a sequence of equality tests against the 25 literals with a
catch-all; signed 32-bit values are embedded as `Int`. -/
def SeverityNumber.as_str_name (severity_number : Int) : String :=
  if severity_number = 0 then "SEVERITY_NUMBER_UNSPECIFIED"
  else if severity_number = 1 then "SEVERITY_NUMBER_TRACE"
  else if severity_number = 2 then "SEVERITY_NUMBER_TRACE2"
  else if severity_number = 3 then "SEVERITY_NUMBER_TRACE3"
  else if severity_number = 4 then "SEVERITY_NUMBER_TRACE4"
  else if severity_number = 5 then "SEVERITY_NUMBER_DEBUG"
  else if severity_number = 6 then "SEVERITY_NUMBER_DEBUG2"
  else if severity_number = 7 then "SEVERITY_NUMBER_DEBUG3"
  else if severity_number = 8 then "SEVERITY_NUMBER_DEBUG4"
  else if severity_number = 9 then "SEVERITY_NUMBER_INFO"
  else if severity_number = 10 then "SEVERITY_NUMBER_INFO2"
  else if severity_number = 11 then "SEVERITY_NUMBER_INFO3"
  else if severity_number = 12 then "SEVERITY_NUMBER_INFO4"
  else if severity_number = 13 then "SEVERITY_NUMBER_WARN"
  else if severity_number = 14 then "SEVERITY_NUMBER_WARN2"
  else if severity_number = 15 then "SEVERITY_NUMBER_WARN3"
  else if severity_number = 16 then "SEVERITY_NUMBER_WARN4"
  else if severity_number = 17 then "SEVERITY_NUMBER_ERROR"
  else if severity_number = 18 then "SEVERITY_NUMBER_ERROR2"
  else if severity_number = 19 then "SEVERITY_NUMBER_ERROR3"
  else if severity_number = 20 then "SEVERITY_NUMBER_ERROR4"
  else if severity_number = 21 then "SEVERITY_NUMBER_FATAL"
  else if severity_number = 22 then "SEVERITY_NUMBER_FATAL2"
  else if severity_number = 23 then "SEVERITY_NUMBER_FATAL3"
  else if severity_number = 24 then "SEVERITY_NUMBER_FATAL4"
  else "Invalid severity number"

/-- `SeverityNumber::from_str_name` from
`server/src/handlers/http/otel/log.rs`, arm by arm. -/
def SeverityNumber.from_str_name (value : String) : Option SeverityNumber :=
  if value = "SEVERITY_NUMBER_UNSPECIFIED" then some .Unspecified
  else if value = "SEVERITY_NUMBER_TRACE" then some .Trace
  else if value = "SEVERITY_NUMBER_TRACE2" then some .Trace2
  else if value = "SEVERITY_NUMBER_TRACE3" then some .Trace3
  else if value = "SEVERITY_NUMBER_TRACE4" then some .Trace4
  else if value = "SEVERITY_NUMBER_DEBUG" then some .Debug
  else if value = "SEVERITY_NUMBER_DEBUG2" then some .Debug2
  else if value = "SEVERITY_NUMBER_DEBUG3" then some .Debug3
  else if value = "SEVERITY_NUMBER_DEBUG4" then some .Debug4
  else if value = "SEVERITY_NUMBER_INFO" then some .Info
  else if value = "SEVERITY_NUMBER_INFO2" then some .Info2
  else if value = "SEVERITY_NUMBER_INFO3" then some .Info3
  else if value = "SEVERITY_NUMBER_INFO4" then some .Info4
  else if value = "SEVERITY_NUMBER_WARN" then some .Warn
  else if value = "SEVERITY_NUMBER_WARN2" then some .Warn2
  else if value = "SEVERITY_NUMBER_WARN3" then some .Warn3
  else if value = "SEVERITY_NUMBER_WARN4" then some .Warn4
  else if value = "SEVERITY_NUMBER_ERROR" then some .Error
  else if value = "SEVERITY_NUMBER_ERROR2" then some .Error2
  else if value = "SEVERITY_NUMBER_ERROR3" then some .Error3
  else if value = "SEVERITY_NUMBER_ERROR4" then some .Error4
  else if value = "SEVERITY_NUMBER_FATAL" then some .Fatal
  else if value = "SEVERITY_NUMBER_FATAL2" then some .Fatal2
  else if value = "SEVERITY_NUMBER_FATAL3" then some .Fatal3
  else if value = "SEVERITY_NUMBER_FATAL4" then some .Fatal4
  else none

/-- The 24 severity names of the ordered scale, positions 0 to 23 holding
the names of severity numbers 1 to 24 (TRACE1-4 < DEBUG1-4 < INFO1-4 <
WARN1-4 < ERROR1-4 < FATAL1-4). -/
def severityScale : List String :=
  ["SEVERITY_NUMBER_TRACE", "SEVERITY_NUMBER_TRACE2",
   "SEVERITY_NUMBER_TRACE3", "SEVERITY_NUMBER_TRACE4",
   "SEVERITY_NUMBER_DEBUG", "SEVERITY_NUMBER_DEBUG2",
   "SEVERITY_NUMBER_DEBUG3", "SEVERITY_NUMBER_DEBUG4",
   "SEVERITY_NUMBER_INFO", "SEVERITY_NUMBER_INFO2",
   "SEVERITY_NUMBER_INFO3", "SEVERITY_NUMBER_INFO4",
   "SEVERITY_NUMBER_WARN", "SEVERITY_NUMBER_WARN2",
   "SEVERITY_NUMBER_WARN3", "SEVERITY_NUMBER_WARN4",
   "SEVERITY_NUMBER_ERROR", "SEVERITY_NUMBER_ERROR2",
   "SEVERITY_NUMBER_ERROR3", "SEVERITY_NUMBER_ERROR4",
   "SEVERITY_NUMBER_FATAL", "SEVERITY_NUMBER_FATAL2",
   "SEVERITY_NUMBER_FATAL3", "SEVERITY_NUMBER_FATAL4"]

/-- Modelled from the spec: one registry read of a counter series,
returning the registry left behind by the read together with the read
result.  Per §6 the consumed interface is `Counter.get() -> u64`, and per
§7 a read of an absent series reports `SeriesNotFound` and performs no
write, so the registry is returned unchanged.  Threading the registry
makes the (absence of) frame effects of the snapshot reader statable. -/
def read_metric (r : Registry) (m : MetricName) (l : List String) :
    Registry × Option Nat :=
  (r, get_metric_with_label_values r m l)

/-- `get_current_stats` with the registry state threaded through the nine
reads: each source line `M.get_metric_with_label_values(..).ok()?.get()`
becomes a `read_metric` call on the registry left by the previous read,
and the registry after the last performed read is returned alongside the
snapshot. -/
def get_current_stats_st (r0 : Registry) (stream_name format : String) :
    Registry × Option FullStats :=
  let event_labels := event_labels stream_name format
  let storage_size_labels := storage_size_labels stream_name
  let p1 := read_metric r0 .EVENTS_INGESTED event_labels
  match p1.2 with
  | none => (p1.1, none)
  | some events_ingested =>
  let p2 := read_metric p1.1 .EVENTS_INGESTED_SIZE event_labels
  match p2.2 with
  | none => (p2.1, none)
  | some ingestion_size =>
  let p3 := read_metric p2.1 .STORAGE_SIZE storage_size_labels
  match p3.2 with
  | none => (p3.1, none)
  | some storage_size =>
  let p4 := read_metric p3.1 .EVENTS_DELETED event_labels
  match p4.2 with
  | none => (p4.1, none)
  | some events_deleted =>
  let p5 := read_metric p4.1 .EVENTS_DELETED_SIZE event_labels
  match p5.2 with
  | none => (p5.1, none)
  | some events_deleted_size =>
  let p6 := read_metric p5.1 .DELETED_EVENTS_STORAGE_SIZE storage_size_labels
  match p6.2 with
  | none => (p6.1, none)
  | some deleted_events_storage_size =>
  let p7 := read_metric p6.1 .LIFETIME_EVENTS_INGESTED event_labels
  match p7.2 with
  | none => (p7.1, none)
  | some lifetime_events_ingested =>
  let p8 := read_metric p7.1 .LIFETIME_EVENTS_INGESTED_SIZE event_labels
  match p8.2 with
  | none => (p8.1, none)
  | some lifetime_ingestion_size =>
  let p9 := read_metric p8.1 .LIFETIME_EVENTS_STORAGE_SIZE storage_size_labels
  match p9.2 with
  | none => (p9.1, none)
  | some lifetime_events_storage_size =>
  (p9.1,
   some { lifetime_stats := { events := lifetime_events_ingested,
                              ingestion := lifetime_ingestion_size,
                              storage := lifetime_events_storage_size },
          current_stats := { events := events_ingested,
                             ingestion := ingestion_size,
                             storage := storage_size },
          deleted_stats := { events := events_deleted,
                             ingestion := events_deleted_size,
                             storage := deleted_events_storage_size } })

/-- A registry in which every series of every family exists with value 7:
every read and every removal succeeds. -/
def regAll : Registry := fun _ _ => some 7

/-- The empty registry: every read and every removal fails. -/
def regEmpty : Registry := fun _ _ => none

/-- A registry holding exactly one series: the ingestion-size series of
stream `"s"` with format `"json"`, at value 5.  The very first removal
issued by `delete_stats "s" "json"` (events-ingested) fails on it, while
the ingestion-size series is removable. -/
def regOnlySize : Registry :=
  fun m l =>
    if m = .EVENTS_INGESTED_SIZE then
      (if l = ["s", "json"] then some 5 else none)
    else none

theorem delete_stats_eq_run (r : Registry) (s f : String) :
    delete_stats r s f =
      runTeardown (deleteCallOrder s f) { reg := r, calls := [], result := .ok () } := rfl

lemma runTeardown_nil (o : DeleteOutcome) : runTeardown [] o = o := rfl

lemma runTeardown_cons (a : MetricName × List String)
    (keys : List (MetricName × List String)) (o : DeleteOutcome) :
    runTeardown (a :: keys) o = runTeardown keys (tryRemove a.1 a.2 o) := rfl

lemma tryRemove_error_absorb (m : MetricName) (l : List String)
    (o : DeleteOutcome) (e : PromError) (h : o.result = .error e) :
    tryRemove m l o = o := by
  unfold tryRemove
  rw [h]

lemma runTeardown_error_absorb (keys : List (MetricName × List String))
    (o : DeleteOutcome) (e : PromError) (h : o.result = .error e) :
    runTeardown keys o = o := by
  induction keys generalizing o with
  | nil => rfl
  | cons a rest ih =>
      rw [runTeardown_cons, tryRemove_error_absorb a.1 a.2 o e h, ih o h]

lemma tryRemove_ok_some (m : MetricName) (l : List String) (r : Registry)
    (c : List (MetricName × List String)) (v : Nat) (hv : r m l = some v) :
    tryRemove m l { reg := r, calls := c, result := .ok () } =
      { reg := fun m2 l2 => if m2 = m then (if l2 = l then none else r m2 l2)
                            else r m2 l2,
        calls := c ++ [(m, l)], result := .ok () } := by
  unfold tryRemove remove_label_values
  dsimp only
  rw [hv]

lemma tryRemove_ok_none (m : MetricName) (l : List String) (r : Registry)
    (c : List (MetricName × List String)) (hv : r m l = none) :
    tryRemove m l { reg := r, calls := c, result := .ok () } =
      { reg := r, calls := c ++ [(m, l)], result := .error .notFound } := by
  unfold tryRemove remove_label_values
  dsimp only
  rw [hv]

lemma tryRemove_reg_other (m : MetricName) (l : List String) (o : DeleteOutcome)
    (k : MetricName) (kl : List String) (h : ¬(k = m ∧ kl = l)) :
    (tryRemove m l o).reg k kl = o.reg k kl := by
  unfold tryRemove remove_label_values
  rcases o.result with e | u
  · rfl
  · rcases u
    rcases hv : o.reg m l with _ | v
    · rfl
    · by_cases hk : k = m
      · by_cases hkl : kl = l
        · exact absurd ⟨hk, hkl⟩ h
        · simp [hk, hkl]
      · simp [hk]

lemma runTeardown_reg_untouched (keys : List (MetricName × List String))
    (o : DeleteOutcome) (k : MetricName) (kl : List String)
    (h : (k, kl) ∉ keys) :
    (runTeardown keys o).reg k kl = o.reg k kl := by
  induction keys generalizing o with
  | nil => rfl
  | cons a rest ih =>
      rw [List.mem_cons, not_or] at h
      rw [runTeardown_cons, ih (tryRemove a.1 a.2 o) h.2,
        tryRemove_reg_other a.1 a.2 o k kl]
      intro hx
      exact h.1 (by rw [hx.1, hx.2])

lemma tryRemove_none_preserved (m : MetricName) (l : List String)
    (o : DeleteOutcome) (k : MetricName) (kl : List String)
    (h : o.reg k kl = none) :
    (tryRemove m l o).reg k kl = none := by
  unfold tryRemove remove_label_values
  rcases o.result with e | u
  · exact h
  · rcases u
    rcases hv : o.reg m l with _ | v
    · exact h
    · by_cases hk : k = m
      · subst hk
        by_cases hkl : kl = l
        · simp [hkl]
        · simp [hkl, h]
      · simp [hk, h]

lemma runTeardown_none_preserved (keys : List (MetricName × List String))
    (o : DeleteOutcome) (k : MetricName) (kl : List String)
    (h : o.reg k kl = none) :
    (runTeardown keys o).reg k kl = none := by
  induction keys generalizing o with
  | nil => exact h
  | cons a rest ih =>
      rw [runTeardown_cons]
      exact ih (tryRemove a.1 a.2 o) (tryRemove_none_preserved a.1 a.2 o k kl h)

lemma runTeardown_calls_take (keys : List (MetricName × List String))
    (r : Registry) (c : List (MetricName × List String)) :
    ∃ n, (runTeardown keys { reg := r, calls := c, result := .ok () }).calls
        = c ++ keys.take n ∧
      ((runTeardown keys { reg := r, calls := c, result := .ok () }).result = .ok () →
        (runTeardown keys { reg := r, calls := c, result := .ok () }).calls
          = c ++ keys) := by
  induction keys generalizing r c with
  | nil => exact ⟨0, by simp [runTeardown_nil], fun _ => by simp [runTeardown_nil]⟩
  | cons a rest ih =>
      rcases hv : r a.1 a.2 with _ | v
      · refine ⟨1, ?_, ?_⟩
        · rw [runTeardown_cons, tryRemove_ok_none a.1 a.2 r c hv,
            runTeardown_error_absorb rest _ .notFound rfl]
          simp
        · rw [runTeardown_cons, tryRemove_ok_none a.1 a.2 r c hv,
            runTeardown_error_absorb rest _ .notFound rfl]
          intro habs
          simp at habs
      · obtain ⟨n, hc, hok⟩ := ih
          (fun m2 l2 => if m2 = a.1 then (if l2 = a.2 then none else r m2 l2)
                        else r m2 l2) (c ++ [(a.1, a.2)])
        refine ⟨n + 1, ?_, ?_⟩
        · rw [runTeardown_cons, tryRemove_ok_some a.1 a.2 r c v hv, hc]
          simp
        · rw [runTeardown_cons, tryRemove_ok_some a.1 a.2 r c v hv]
          intro hres
          rw [hok hres]
          simp

lemma runTeardown_err_char (keys : List (MetricName × List String))
    (r : Registry) (c : List (MetricName × List String)) (e : PromError)
    (h : (runTeardown keys { reg := r, calls := c, result := .ok () }).result
          = .error e) :
    ∃ pre m l post, keys = pre ++ (m, l) :: post ∧
      (runTeardown keys { reg := r, calls := c, result := .ok () }).calls
        = (c ++ pre) ++ [(m, l)] ∧
      (runTeardown keys { reg := r, calls := c, result := .ok () }).reg
        = (runTeardown pre { reg := r, calls := c, result := .ok () }).reg ∧
      (runTeardown pre { reg := r, calls := c, result := .ok () }).reg m l
        = none ∧
      (runTeardown pre { reg := r, calls := c, result := .ok () }).result
        = .ok () := by
  induction keys generalizing r c with
  | nil => simp [runTeardown_nil] at h
  | cons a rest ih =>
      rcases hv : r a.1 a.2 with _ | v
      · refine ⟨[], a.1, a.2, rest, by simp, ?_, ?_, ?_, rfl⟩
        · rw [runTeardown_cons, tryRemove_ok_none a.1 a.2 r c hv,
            runTeardown_error_absorb rest _ .notFound rfl]
          simp
        · rw [runTeardown_cons, tryRemove_ok_none a.1 a.2 r c hv,
            runTeardown_error_absorb rest _ .notFound rfl, runTeardown_nil]
        · rw [runTeardown_nil]
          exact hv
      · rw [runTeardown_cons, tryRemove_ok_some a.1 a.2 r c v hv] at h
        obtain ⟨pre2, m, l, post2, hkeys, hcalls, hreg, hnone, hok⟩ := ih _ _ h
        refine ⟨a :: pre2, m, l, post2, by simp [hkeys], ?_, ?_, ?_, ?_⟩
        · rw [runTeardown_cons, tryRemove_ok_some a.1 a.2 r c v hv, hcalls]
          simp
        · rw [runTeardown_cons, tryRemove_ok_some a.1 a.2 r c v hv, hreg,
            runTeardown_cons, tryRemove_ok_some a.1 a.2 r c v hv]
        · rw [runTeardown_cons, tryRemove_ok_some a.1 a.2 r c v hv]
          exact hnone
        · rw [runTeardown_cons, tryRemove_ok_some a.1 a.2 r c v hv]
          exact hok

lemma runTeardown_ok_all_removed (keys : List (MetricName × List String)) :
    ∀ r c,
      (runTeardown keys { reg := r, calls := c, result := .ok () }).result
        = .ok () →
      ∀ k kl, (k, kl) ∈ keys →
        (runTeardown keys { reg := r, calls := c, result := .ok () }).reg k kl
          = none := by
  induction keys with
  | nil =>
      intro r c h k kl hmem
      simp at hmem
  | cons a rest ih =>
      intro r c h k kl hmem
      rcases hv : r a.1 a.2 with _ | v
      · rw [runTeardown_cons, tryRemove_ok_none a.1 a.2 r c hv,
          runTeardown_error_absorb rest _ .notFound rfl] at h
        simp at h
      · rw [runTeardown_cons, tryRemove_ok_some a.1 a.2 r c v hv] at h ⊢
        rcases List.mem_cons.mp hmem with heq | hrest
        · subst heq
          apply runTeardown_none_preserved
          simp
        · exact ih _ _ h k kl hrest

lemma deleteCallOrder_map_fst (s f : String) :
    (deleteCallOrder s f).map Prod.fst =
      [.EVENTS_INGESTED, .EVENTS_INGESTED_SIZE, .STORAGE_SIZE,
       .EVENTS_DELETED, .EVENTS_DELETED_SIZE, .DELETED_EVENTS_STORAGE_SIZE,
       .LIFETIME_EVENTS_INGESTED, .LIFETIME_EVENTS_INGESTED_SIZE,
       .LIFETIME_EVENTS_STORAGE_SIZE, .EVENTS_INGESTED_DATE,
       .EVENTS_INGESTED_SIZE_DATE, .EVENTS_STORAGE_SIZE_DATE] := rfl

lemma deleteCallOrder_nodup (s f : String) : (deleteCallOrder s f).Nodup := by
  have h : ((deleteCallOrder s f).map Prod.fst).Nodup := by
    rw [deleteCallOrder_map_fst]
    decide
  exact h.of_map


lemma as_str_name_out_of_range (i : Int) (h : i < 0 ∨ 24 < i) :
    SeverityNumber.as_str_name i = "Invalid severity number" := by
  unfold SeverityNumber.as_str_name
  repeat rw [if_neg (by omega)]

/-- C5: for every stream name, format and date, the label key builder
produces exactly the four tuple shapes in the fixed component order:
`(stream, format)`, `(stream, format, date)`,
`("data", stream, "parquet")`, `("data", stream, "parquet", date)`;
the storage tuples prepend the constant `"data"` and append the constant
`"parquet"` around the stream name, and the date-partitioned tuples
append the date to the date-less shape. -/
theorem C5_label_builder_shapes (s f d : String) :
    event_labels s f = [s, f] ∧
    event_labels_date s f d = event_labels s f ++ [d] ∧
    storage_size_labels s = ["data"] ++ [s] ++ ["parquet"] ∧
    storage_size_labels_date s d = storage_size_labels s ++ [d] :=
  ⟨rfl, rfl, rfl, rfl⟩

/-- C6 counterexample: two distinct (builder, input) combinations produce
the same label tuple: the date-partitioned event builder applied to
stream `"data"`, format `"json"`, date `"parquet"` collides with the
storage builder applied to stream `"json"`.  This refutes the claim that
the tuples of every pair of distinct (builder, input) combinations are
distinct. -/
theorem C6_counterexample :
    event_labels_date "data" "json" "parquet" = storage_size_labels "json" := rfl

/-- C6 amended: each of the four label builders is injective, and label
tuples produced by different builders are always distinct, with one
exception: `event_labels_date s f d` equals `storage_size_labels s2`
exactly when `s = "data"`, `f = s2` and `d = "parquet"`. -/
theorem C6_amended (s f d s2 f2 d2 : String) :
    (event_labels s f = event_labels s2 f2 ↔ (s = s2 ∧ f = f2)) ∧
    (storage_size_labels s = storage_size_labels s2 ↔ s = s2) ∧
    (event_labels_date s f d = event_labels_date s2 f2 d2 ↔
      (s = s2 ∧ f = f2 ∧ d = d2)) ∧
    (storage_size_labels_date s d = storage_size_labels_date s2 d2 ↔
      (s = s2 ∧ d = d2)) ∧
    event_labels s f ≠ storage_size_labels s2 ∧
    event_labels s f ≠ event_labels_date s2 f2 d2 ∧
    event_labels s f ≠ storage_size_labels_date s2 d2 ∧
    event_labels_date s f d ≠ storage_size_labels_date s2 d2 ∧
    storage_size_labels s ≠ storage_size_labels_date s2 d2 ∧
    (event_labels_date s f d = storage_size_labels s2 ↔
      (s = "data" ∧ f = s2 ∧ d = "parquet")) := by
  simp [event_labels, storage_size_labels, event_labels_date,
    storage_size_labels_date]

/-- C4 counterexample: severity numbers 0 and 25 do not normalize to the
same result: `as_str_name` maps 25 (out of range) to the sentinel
`"Invalid severity number"`, which differs from the image of 0,
`"SEVERITY_NUMBER_UNSPECIFIED"`. -/
theorem C4_counterexample :
    SeverityNumber.as_str_name 25 ≠ SeverityNumber.as_str_name 0 ∧
    SeverityNumber.as_str_name 25 = "Invalid severity number" := by
  exact ⟨by decide, rfl⟩

/-- C4 amended: `as_str_name` maps severity numbers 1 through 24 to the
ordered named severity scale and 0 to `"SEVERITY_NUMBER_UNSPECIFIED"`;
every out-of-range value (e.g. 25) maps to the sentinel
`"Invalid severity number"`, which is distinct from the image of 0;
severity number 9 normalizes to INFO. -/
theorem C4_amended :
    (∀ i : Int, 1 ≤ i → i ≤ 24 →
      SeverityNumber.as_str_name i = severityScale.getD (i - 1).toNat "") ∧
    SeverityNumber.as_str_name 0 = "SEVERITY_NUMBER_UNSPECIFIED" ∧
    (∀ i : Int, i < 0 ∨ 24 < i →
      SeverityNumber.as_str_name i = "Invalid severity number") ∧
    SeverityNumber.as_str_name 25 ≠ SeverityNumber.as_str_name 0 ∧
    SeverityNumber.as_str_name 9 = "SEVERITY_NUMBER_INFO" := by
  refine ⟨?_, rfl, as_str_name_out_of_range, by decide, rfl⟩
  intro i h1 h2
  interval_cases i <;> rfl

/-- C4 amended, witnessed at severity numbers 9 and 25. -/
theorem C4_amended_witness :
    SeverityNumber.as_str_name 9 = severityScale.getD ((9 : Int) - 1).toNat "" ∧
    SeverityNumber.as_str_name 25 = "Invalid severity number" :=
  ⟨C4_amended.1 9 (by decide) (by decide), C4_amended.2.2.1 25 (by decide)⟩

/-- C8: name conversion round-trips on the defined range: for 0 ≤ i ≤ 24,
`from_str_name (as_str_name i)` is `some` of the variant whose numeric
value is `i`; outside that range `as_str_name` yields the sentinel
`"Invalid severity number"`, on which `from_str_name` returns `none`. -/
theorem C8_round_trip :
    (∀ i : Int, 0 ≤ i → i ≤ 24 →
      (SeverityNumber.from_str_name (SeverityNumber.as_str_name i)).map
        SeverityNumber.val = some i) ∧
    (∀ i : Int, i < 0 ∨ 24 < i →
      SeverityNumber.as_str_name i = "Invalid severity number" ∧
      SeverityNumber.from_str_name (SeverityNumber.as_str_name i) = none) := by
  constructor
  · intro i h1 h2
    interval_cases i <;> rfl
  · intro i h
    refine ⟨as_str_name_out_of_range i h, ?_⟩
    rw [as_str_name_out_of_range i h]
    rfl

/-- C8, witnessed at severity numbers 9 and 25. -/
theorem C8_round_trip_witness :
    (SeverityNumber.from_str_name (SeverityNumber.as_str_name 9)).map
      SeverityNumber.val = some 9 ∧
    SeverityNumber.from_str_name (SeverityNumber.as_str_name 25) = none :=
  ⟨C8_round_trip.1 9 (by decide) (by decide), (C8_round_trip.2 25 (by decide)).2⟩

lemma get_current_stats_none_of_first (r : Registry) (s f : String)
    (h : r .EVENTS_INGESTED (event_labels s f) = none) :
    get_current_stats r s f = none := by
  simp [get_current_stats, get_metric_with_label_values, h]

lemma delete_stats_first_removed (r : Registry) (s f : String) :
    (delete_stats r s f).reg .EVENTS_INGESTED (event_labels s f) = none := by
  rw [delete_stats_eq_run]
  unfold deleteCallOrder
  rw [runTeardown_cons]
  dsimp only
  rcases hv : r .EVENTS_INGESTED (event_labels s f) with _ | v
  · apply runTeardown_none_preserved
    rw [tryRemove_ok_none _ _ _ _ hv]
    exact hv
  · apply runTeardown_none_preserved
    rw [tryRemove_ok_some _ _ _ _ v hv]
    simp

/-- C2: `get_current_stats` returns `none` exactly when at least one of
the nine non-date-partitioned series of the stream is absent, and when
all nine reads succeed it returns `some FullStats` whose lifetime,
current and deleted tiers are assembled from the lifetime, ingested and
deleted counters respectively. -/
theorem C2_get_current_stats_reads_nine (r : Registry) (s f : String) :
    (get_current_stats r s f = none ↔
      (r .EVENTS_INGESTED (event_labels s f) = none ∨
       r .EVENTS_INGESTED_SIZE (event_labels s f) = none ∨
       r .STORAGE_SIZE (storage_size_labels s) = none ∨
       r .EVENTS_DELETED (event_labels s f) = none ∨
       r .EVENTS_DELETED_SIZE (event_labels s f) = none ∨
       r .DELETED_EVENTS_STORAGE_SIZE (storage_size_labels s) = none ∨
       r .LIFETIME_EVENTS_INGESTED (event_labels s f) = none ∨
       r .LIFETIME_EVENTS_INGESTED_SIZE (event_labels s f) = none ∨
       r .LIFETIME_EVENTS_STORAGE_SIZE (storage_size_labels s) = none)) ∧
    (∀ e isz st de dsz dst le li ls : Nat,
      r .EVENTS_INGESTED (event_labels s f) = some e →
      r .EVENTS_INGESTED_SIZE (event_labels s f) = some isz →
      r .STORAGE_SIZE (storage_size_labels s) = some st →
      r .EVENTS_DELETED (event_labels s f) = some de →
      r .EVENTS_DELETED_SIZE (event_labels s f) = some dsz →
      r .DELETED_EVENTS_STORAGE_SIZE (storage_size_labels s) = some dst →
      r .LIFETIME_EVENTS_INGESTED (event_labels s f) = some le →
      r .LIFETIME_EVENTS_INGESTED_SIZE (event_labels s f) = some li →
      r .LIFETIME_EVENTS_STORAGE_SIZE (storage_size_labels s) = some ls →
      get_current_stats r s f =
        some { lifetime_stats := { events := le, ingestion := li, storage := ls },
               current_stats := { events := e, ingestion := isz, storage := st },
               deleted_stats := { events := de, ingestion := dsz, storage := dst } }) := by
  constructor
  · rcases h1 : r .EVENTS_INGESTED (event_labels s f) with _ | v1
    · simp [get_current_stats, get_metric_with_label_values, h1]
    · rcases h2 : r .EVENTS_INGESTED_SIZE (event_labels s f) with _ | v2
      · simp [get_current_stats, get_metric_with_label_values, h1, h2]
      · rcases h3 : r .STORAGE_SIZE (storage_size_labels s) with _ | v3
        · simp [get_current_stats, get_metric_with_label_values, h1, h2, h3]
        · rcases h4 : r .EVENTS_DELETED (event_labels s f) with _ | v4
          · simp [get_current_stats, get_metric_with_label_values, h1, h2, h3, h4]
          · rcases h5 : r .EVENTS_DELETED_SIZE (event_labels s f) with _ | v5
            · simp [get_current_stats, get_metric_with_label_values,
                h1, h2, h3, h4, h5]
            · rcases h6 : r .DELETED_EVENTS_STORAGE_SIZE (storage_size_labels s)
                with _ | v6
              · simp [get_current_stats, get_metric_with_label_values,
                  h1, h2, h3, h4, h5, h6]
              · rcases h7 : r .LIFETIME_EVENTS_INGESTED (event_labels s f)
                  with _ | v7
                · simp [get_current_stats, get_metric_with_label_values,
                    h1, h2, h3, h4, h5, h6, h7]
                · rcases h8 : r .LIFETIME_EVENTS_INGESTED_SIZE (event_labels s f)
                    with _ | v8
                  · simp [get_current_stats, get_metric_with_label_values,
                      h1, h2, h3, h4, h5, h6, h7, h8]
                  · rcases h9 : r .LIFETIME_EVENTS_STORAGE_SIZE
                      (storage_size_labels s) with _ | v9
                    · simp [get_current_stats, get_metric_with_label_values,
                        h1, h2, h3, h4, h5, h6, h7, h8, h9]
                    · simp [get_current_stats, get_metric_with_label_values,
                        h1, h2, h3, h4, h5, h6, h7, h8, h9]
  · intro e isz st de dsz dst le li ls h1 h2 h3 h4 h5 h6 h7 h8 h9
    simp [get_current_stats, get_metric_with_label_values,
      h1, h2, h3, h4, h5, h6, h7, h8, h9]

/-- C2, witnessed on a registry where all series hold value 7: the
snapshot succeeds and assembles the three tiers. -/
theorem C2_get_current_stats_reads_nine_witness :
    get_current_stats regAll "s" "json" =
      some { lifetime_stats := { events := 7, ingestion := 7, storage := 7 },
             current_stats := { events := 7, ingestion := 7, storage := 7 },
             deleted_stats := { events := 7, ingestion := 7, storage := 7 } } :=
  (C2_get_current_stats_reads_nine regAll "s" "json").2
    7 7 7 7 7 7 7 7 7 rfl rfl rfl rfl rfl rfl rfl rfl rfl

/-- C3: for every registry state, stream name and format, a
`get_current_stats` immediately after `delete_stats` (no intervening
ingest) returns `none`, never a zero-valued `FullStats`: whether or not
the teardown succeeded, the events-ingested series — the first removal
attempted — is absent afterwards, so the first snapshot read fails. -/
theorem C3_delete_then_get_not_found (r : Registry) (s f : String) :
    get_current_stats (delete_stats r s f).reg s f = none :=
  get_current_stats_none_of_first _ s f (delete_stats_first_removed r s f)

/-- C1 counterexample: on a registry holding only the ingestion-size
series of `("s", "json")`, `delete_stats` fails on its very first removal
(events-ingested, absent) and returns that single `NotFound` error; the
ingestion-size series — although removable — survives, and its removal is
never attempted (only one removal call was issued).  This refutes the
claim that a failed removal does not prevent the remaining removals from
being attempted and that individual failures are aggregated into a
`PartialTeardownError` naming the surviving series. -/
theorem C1_counterexample :
    (delete_stats regOnlySize "s" "json").result = .error .notFound ∧
    (delete_stats regOnlySize "s" "json").reg
      .EVENTS_INGESTED_SIZE ["s", "json"] = some 5 ∧
    (delete_stats regOnlySize "s" "json").calls
      = [(.EVENTS_INGESTED, ["s", "json"])] := by
  refine ⟨rfl, by decide, by decide⟩

/-- C1 amended: `delete_stats` attempts the removals sequentially and
aborts on the first failure, propagating that single error (`?`): some
prefix of the fixed call order is attempted, the failing series was
absent when its removal was attempted, every series scheduled after the
failing call is left untouched, and the removals completed before the
failure persist — the series removed before the failing call are still
absent from the final registry (no rollback) — while no aggregation of
failures takes place. -/
theorem C1_amended_fail_fast (r : Registry) (s f : String) (e : PromError)
    (h : (delete_stats r s f).result = .error e) :
    ∃ pre m l post, deleteCallOrder s f = pre ++ (m, l) :: post ∧
      (delete_stats r s f).calls = pre ++ [(m, l)] ∧
      (runTeardown pre { reg := r, calls := [], result := .ok () }).reg m l
        = none ∧
      (∀ k kl, (k, kl) ∈ post → (delete_stats r s f).reg k kl = r k kl) ∧
      (∀ k kl, (k, kl) ∈ pre → (delete_stats r s f).reg k kl = none) := by
  rw [delete_stats_eq_run] at h ⊢
  obtain ⟨pre, m, l, post, hkeys, hcalls, hreg, hnone, hok⟩ :=
    runTeardown_err_char (deleteCallOrder s f) r [] e h
  refine ⟨pre, m, l, post, hkeys, by simpa using hcalls, hnone, ?_, ?_⟩
  · intro k kl hk
    rw [hreg]
    apply runTeardown_reg_untouched
    have hnd := deleteCallOrder_nodup s f
    rw [hkeys, List.nodup_append] at hnd
    exact fun hmem => hnd.2.2 hmem (List.mem_cons_of_mem _ hk)
  · intro k kl hk
    rw [hreg]
    exact runTeardown_ok_all_removed pre r [] hok k kl hk

/-- C1 amended, witnessed on `regOnlySize`, where the first removal
fails. -/
theorem C1_amended_fail_fast_witness :
    ∃ pre m l post, deleteCallOrder "s" "json" = pre ++ (m, l) :: post ∧
      (delete_stats regOnlySize "s" "json").calls = pre ++ [(m, l)] ∧
      (runTeardown pre { reg := regOnlySize, calls := [], result := .ok () }).reg
        m l = none ∧
      (∀ k kl, (k, kl) ∈ post →
        (delete_stats regOnlySize "s" "json").reg k kl = regOnlySize k kl) ∧
      (∀ k kl, (k, kl) ∈ pre →
        (delete_stats regOnlySize "s" "json").reg k kl = none) :=
  C1_amended_fail_fast regOnlySize "s" "json" .notFound rfl

/-- C7 counterexample: the sequence of removal calls issued by
`delete_stats` for a fixed `(stream, format)` is not always the same: on
a registry where every series exists all twelve calls are issued, while
on the empty registry only the first call is issued before `?` aborts. -/
theorem C7_counterexample :
    (delete_stats regAll "s" "json").calls
      ≠ (delete_stats regEmpty "s" "json").calls := by
  decide

/-- C7 amended: the removal calls issued by `delete_stats` always follow
the fixed deterministic order — events, ingestion-size, storage-size for
the current, deleted and lifetime tiers, then the date-partitioned
families: the sequence issued is always a prefix (`List.take`) of that
fixed twelve-call sequence, and is the whole sequence whenever
`delete_stats` succeeds. -/
theorem C7_amended_fixed_order (r : Registry) (s f : String) :
    (∃ n, (delete_stats r s f).calls = (deleteCallOrder s f).take n) ∧
    ((delete_stats r s f).result = .ok () →
      (delete_stats r s f).calls = deleteCallOrder s f) := by
  rw [delete_stats_eq_run]
  obtain ⟨n, hc, hok⟩ := runTeardown_calls_take (deleteCallOrder s f) r []
  exact ⟨⟨n, by simpa using hc⟩, fun h => by simpa using hok h⟩

/-- C7 amended, witnessed on a registry where every removal succeeds: the
full fixed sequence is issued. -/
theorem C7_amended_fixed_order_witness :
    (delete_stats regAll "s" "json").calls = deleteCallOrder "s" "json" :=
  (C7_amended_fixed_order regAll "s" "json").2 rfl

lemma delete_stats_calls_subset (r : Registry) (s f : String) :
    (delete_stats r s f).calls ⊆ deleteCallOrder s f := by
  rw [delete_stats_eq_run]
  obtain ⟨n, hc, _⟩ := runTeardown_calls_take (deleteCallOrder s f) r []
  rw [hc]
  simpa using List.take_subset n (deleteCallOrder s f)

/-- C9: the three date-partitioned families are addressed by
`delete_stats` with the date-less label tuples only; consequently, for
every date, the date-partitioned series keyed `(stream, format, date)`
or `("data", stream, "parquet", date)` are never among the removal
targets and survive stream deletion with unchanged values. -/
theorem C9_dated_series_survive (r : Registry) (s f d : String) :
    (∀ kl, (MetricName.EVENTS_INGESTED_DATE, kl) ∈ (delete_stats r s f).calls →
      kl = event_labels s f) ∧
    (∀ kl, (MetricName.EVENTS_INGESTED_SIZE_DATE, kl) ∈ (delete_stats r s f).calls →
      kl = event_labels s f) ∧
    (∀ kl, (MetricName.EVENTS_STORAGE_SIZE_DATE, kl) ∈ (delete_stats r s f).calls →
      kl = storage_size_labels s) ∧
    (MetricName.EVENTS_INGESTED_DATE, event_labels_date s f d)
      ∉ (delete_stats r s f).calls ∧
    (MetricName.EVENTS_INGESTED_SIZE_DATE, event_labels_date s f d)
      ∉ (delete_stats r s f).calls ∧
    (MetricName.EVENTS_STORAGE_SIZE_DATE, storage_size_labels_date s d)
      ∉ (delete_stats r s f).calls ∧
    (delete_stats r s f).reg .EVENTS_INGESTED_DATE (event_labels_date s f d)
      = r .EVENTS_INGESTED_DATE (event_labels_date s f d) ∧
    (delete_stats r s f).reg .EVENTS_INGESTED_SIZE_DATE (event_labels_date s f d)
      = r .EVENTS_INGESTED_SIZE_DATE (event_labels_date s f d) ∧
    (delete_stats r s f).reg .EVENTS_STORAGE_SIZE_DATE (storage_size_labels_date s d)
      = r .EVENTS_STORAGE_SIZE_DATE (storage_size_labels_date s d) := by
  have hsub := delete_stats_calls_subset r s f
  refine ⟨?_, ?_, ?_, ?_, ?_, ?_, ?_, ?_, ?_⟩
  · intro kl hmem
    have hx := hsub hmem
    simp [deleteCallOrder] at hx
    exact hx
  · intro kl hmem
    have hx := hsub hmem
    simp [deleteCallOrder] at hx
    exact hx
  · intro kl hmem
    have hx := hsub hmem
    simp [deleteCallOrder] at hx
    exact hx
  · intro hmem
    have hx := hsub hmem
    simp [deleteCallOrder, event_labels, event_labels_date,
      storage_size_labels] at hx
  · intro hmem
    have hx := hsub hmem
    simp [deleteCallOrder, event_labels, event_labels_date,
      storage_size_labels] at hx
  · intro hmem
    have hx := hsub hmem
    simp [deleteCallOrder, event_labels, event_labels_date,
      storage_size_labels, storage_size_labels_date] at hx
  · rw [delete_stats_eq_run]
    exact runTeardown_reg_untouched _ _ _ _
      (by simp [deleteCallOrder, event_labels, event_labels_date,
        storage_size_labels])
  · rw [delete_stats_eq_run]
    exact runTeardown_reg_untouched _ _ _ _
      (by simp [deleteCallOrder, event_labels, event_labels_date,
        storage_size_labels])
  · rw [delete_stats_eq_run]
    exact runTeardown_reg_untouched _ _ _ _
      (by simp [deleteCallOrder, event_labels, event_labels_date,
        storage_size_labels, storage_size_labels_date])

lemma get_current_stats_st_eq (r : Registry) (s f : String) :
    get_current_stats_st r s f = (r, get_current_stats r s f) := by
  unfold get_current_stats_st read_metric
  rcases h1 : get_metric_with_label_values r .EVENTS_INGESTED (event_labels s f)
    with _ | v1
  · simp [get_current_stats, h1]
  · rcases h2 : get_metric_with_label_values r .EVENTS_INGESTED_SIZE
      (event_labels s f) with _ | v2
    · simp [get_current_stats, h1, h2]
    · rcases h3 : get_metric_with_label_values r .STORAGE_SIZE
        (storage_size_labels s) with _ | v3
      · simp [get_current_stats, h1, h2, h3]
      · rcases h4 : get_metric_with_label_values r .EVENTS_DELETED
          (event_labels s f) with _ | v4
        · simp [get_current_stats, h1, h2, h3, h4]
        · rcases h5 : get_metric_with_label_values r .EVENTS_DELETED_SIZE
            (event_labels s f) with _ | v5
          · simp [get_current_stats, h1, h2, h3, h4, h5]
          · rcases h6 : get_metric_with_label_values r .DELETED_EVENTS_STORAGE_SIZE
              (storage_size_labels s) with _ | v6
            · simp [get_current_stats, h1, h2, h3, h4, h5, h6]
            · rcases h7 : get_metric_with_label_values r .LIFETIME_EVENTS_INGESTED
                (event_labels s f) with _ | v7
              · simp [get_current_stats, h1, h2, h3, h4, h5, h6, h7]
              · rcases h8 : get_metric_with_label_values r
                  .LIFETIME_EVENTS_INGESTED_SIZE (event_labels s f) with _ | v8
                · simp [get_current_stats, h1, h2, h3, h4, h5, h6, h7, h8]
                · rcases h9 : get_metric_with_label_values r
                    .LIFETIME_EVENTS_STORAGE_SIZE (storage_size_labels s)
                    with _ | v9
                  · simp [get_current_stats, h1, h2, h3, h4, h5, h6, h7, h8, h9]
                  · simp [get_current_stats, h1, h2, h3, h4, h5, h6, h7, h8, h9]

/-- C10: taking a snapshot is a pure read: threading the registry through
the nine reads of `get_current_stats` leaves the value of every series
unchanged, and the snapshot so obtained is the one computed by
`get_current_stats`. -/
theorem C10_snapshot_is_pure_read (r : Registry) (s f : String) :
    (∀ m l, (get_current_stats_st r s f).1 m l = r m l) ∧
    (get_current_stats_st r s f).2 = get_current_stats r s f := by
  rw [get_current_stats_st_eq]
  exact ⟨fun m l => rfl, rfl⟩

/-- C9, witnessed on a registry where every series exists: the
date-family removal call issued for `("s", "json")` carries the date-less
tuple, and a dated series is unchanged by the deletion. -/
theorem C9_dated_series_survive_witness :
    ["s", "json"] = event_labels "s" "json" ∧
    (delete_stats regAll "s" "json").reg .EVENTS_INGESTED_DATE
        (event_labels_date "s" "json" "2024-01-01")
      = regAll .EVENTS_INGESTED_DATE (event_labels_date "s" "json" "2024-01-01") :=
  ⟨(C9_dated_series_survive regAll "s" "json" "2024-01-01").1
      ["s", "json"] (by decide),
   (C9_dated_series_survive regAll "s" "json" "2024-01-01").2.2.2.2.2.2.1⟩

/-- C6 amended, witnessed at concrete label values. -/
theorem C6_amended_witness :
    (event_labels "a" "b" = event_labels "x" "y" ↔ ("a" = "x" ∧ "b" = "y")) ∧
    (storage_size_labels "a" = storage_size_labels "x" ↔ "a" = "x") ∧
    (event_labels_date "a" "b" "c" = event_labels_date "x" "y" "z" ↔
      ("a" = "x" ∧ "b" = "y" ∧ "c" = "z")) ∧
    (storage_size_labels_date "a" "c" = storage_size_labels_date "x" "z" ↔
      ("a" = "x" ∧ "c" = "z")) ∧
    event_labels "a" "b" ≠ storage_size_labels "x" ∧
    event_labels "a" "b" ≠ event_labels_date "x" "y" "z" ∧
    event_labels "a" "b" ≠ storage_size_labels_date "x" "z" ∧
    event_labels_date "a" "b" "c" ≠ storage_size_labels_date "x" "z" ∧
    storage_size_labels "a" ≠ storage_size_labels_date "x" "z" ∧
    (event_labels_date "a" "b" "c" = storage_size_labels "x" ↔
      ("a" = "data" ∧ "b" = "x" ∧ "c" = "parquet")) :=
  C6_amended "a" "b" "c" "x" "y" "z"

end Parseable
